import Mathlib

/-!
Shallow embedding of the data-ingestion and plotting workflow of
`industry_benchmarks/utils/extras/plot_results.py` and of the renaming
utility `industry_benchmarks/utils/rename_exp_data.py`.

Python floats are modelled as exact rationals (`ℚ`); Python exceptions are
modelled by the `Except` monad over the `PyErr` type below.  External
library calls (cinnabar plotting, the statistics computed inside
`_master_plot`) are modelled as an abstract `computeStats` argument that
may fail, matching the fact that in the source only those calls can raise
the `ValueError` that the `run` command catches.
-/

namespace IndustryBenchmarks

/- Batteries marks the core rational arithmetic irreducible; restore the
default reducibility so that concrete runs of the embedded code can be
evaluated by `decide` and `rfl`. -/
attribute [local semireducible] Rat.add Rat.mul Rat.inv Rat.sub Rat.ofScientific

/-- The Python exception kinds that the embedded code can raise. -/
inductive PyErr where
  | valueError (msg : String)
  | zeroDivisionError
  | indexError
  | runtimeError (msg : String)
  | stopIteration
deriving DecidableEq, Repr

/-- Python `/` on floats: raises `ZeroDivisionError` on a zero denominator. -/
def pyDiv (a b : ℚ) : Except PyErr ℚ :=
  if b = 0 then .error .zeroDivisionError else .ok (a / b)

/-- Python list indexing `row[i]`: raises `IndexError` when out of range. -/
def pyGet (row : List String) (i : Nat) : Except PyErr String :=
  match row.get? i with
  | some s => .ok s
  | none => .error .indexError

/-- Python `list.index(x)`: position of the first occurrence, raising
`ValueError` when `x` is absent (as `headers.index(...)` does in
`get_exp_data`). -/
def pyIndex (l : List String) (x : String) : Except PyErr Nat :=
  match l with
  | [] => .error (.valueError (x ++ " is not in list"))
  | y :: ys => if y = x then .ok 0 else (pyIndex ys x).map (· + 1)

/-- Python `dict` insertion `d[k] = v`: an existing key keeps its position
and gets the new value; a new key is appended.  The association list keeps
the dict's insertion order, which Python guarantees. -/
def dictInsert {β : Type} (d : List (String × β)) (k : String) (v : β) :
    List (String × β) :=
  match d with
  | [] => [(k, v)]
  | (k2, v2) :: rest =>
      if k2 = k then (k, v) :: rest else (k2, v2) :: dictInsert rest k v

/-- Python `dict` lookup `d[k]` as an `Option` (first binding wins, which
agrees with `dictInsert` keeping keys unique). -/
def pyLookup {β : Type} (d : List (String × β)) (k : String) : Option β :=
  match d with
  | [] => none
  | (k2, v2) :: rest => if k2 = k then some v2 else pyLookup rest k

/-- One decimal digit of a character. -/
def digitVal (c : Char) : Option Nat :=
  if c.isDigit then some (c.toNat - 48) else none

/-- Value of a digit string read left to right. -/
def natOfDigits (ds : List Nat) : Nat :=
  ds.foldl (fun a d => a * 10 + d) 0

/-- Value of the digits after the decimal point. -/
def fracOfDigits (ds : List Nat) : ℚ :=
  (natOfDigits ds : ℚ) / ((10 : ℚ) ^ ds.length)

/-- Python's `float(s)` on plain decimal literals (optional sign, digits,
optional fractional part): `none` models the `ValueError` raised on a
malformed number. -/
def pyFloat (s : String) : Option ℚ :=
  let cs := s.toList
  let body := match cs with
    | '-' :: rest => some (true, rest)
    | '+' :: rest => some (false, rest)
    | _ => some (false, cs)
  match body with
  | none => none
  | some (neg, cs2) =>
    let ip := cs2.takeWhile (fun c => c ≠ '.')
    let rest := cs2.dropWhile (fun c => c ≠ '.')
    match rest with
    | [] =>
      match ip.mapM digitVal with
      | none => none
      | some ds =>
        if ds.isEmpty then none
        else some (if neg then -(natOfDigits ds : ℚ) else (natOfDigits ds : ℚ))
    | _ :: fp =>
      if fp.any (fun c => c = '.') then none
      else
        match ip.mapM digitVal, fp.mapM digitVal with
        | some ids, some fds =>
          if ids.isEmpty && fds.isEmpty then none
          else
            let v : ℚ := (natOfDigits ids : ℚ) + fracOfDigits fds
            some (if neg then -v else v)
        | _, _ => none

/-- `float(s)` in the `Except` monad, raising Python's `ValueError`. -/
def pyFloatE (s : String) : Except PyErr ℚ :=
  match pyFloat s with
  | some q => .ok q
  | none => .error (.valueError ("could not convert string to float: " ++ s))

/-! ### `get_exp_data` (plot_results.py lines 11-52) -/

/-- The per-ligand record built by `get_exp_data`. -/
structure ExpRecord where
  exp_dG : ℚ
  exp_dG_err : ℚ
  fep_dG : ℚ
  fep_dG_err : ℚ
deriving DecidableEq, Repr

/-- The body of `get_exp_data`'s row loop (lines 42-50): reads the four
fields of one CSV row and stores them under the ligand-name key. -/
def readExpRow (name_idx exp_dg_idx : Nat) (exp_dg_error_idx : Option Nat)
    (fep_dg_idx fep_dg_error_idx : Nat)
    (d : List (String × ExpRecord)) (row : List String) :
    Except PyErr (List (String × ExpRecord)) := do
  let name ← pyGet row name_idx
  let exp_dG ← pyFloatE (← pyGet row exp_dg_idx)
  let exp_dG_err ← match exp_dg_error_idx with
    | some i => pyFloatE (← pyGet row i)
    | none => pure (0 : ℚ)
  let fep_dG ← pyFloatE (← pyGet row fep_dg_idx)
  let fep_dG_err ← pyFloatE (← pyGet row fep_dg_error_idx)
  pure (dictInsert d name ⟨exp_dG, exp_dG_err, fep_dG, fep_dG_err⟩)

/-- `for row in rd:` of `get_exp_data` as explicit recursion. -/
def expLoop (name_idx exp_dg_idx : Nat) (exp_dg_error_idx : Option Nat)
    (fep_dg_idx fep_dg_error_idx : Nat)
    (d : List (String × ExpRecord)) :
    List (List String) → Except PyErr (List (String × ExpRecord))
  | [] => .ok d
  | row :: rest => do
    let d2 ← readExpRow name_idx exp_dg_idx exp_dg_error_idx
      fep_dg_idx fep_dg_error_idx d row
    expLoop name_idx exp_dg_idx exp_dg_error_idx fep_dg_idx fep_dg_error_idx
      d2 rest

/-- `get_exp_data`: the input CSV as a list of rows of cells, the first row
being the header.  The optional error column's `headers.index` is wrapped
in `try/except ValueError` in the source, hence `.toOption` here. -/
def get_exp_data (tbl : List (List String)) :
    Except PyErr (List (String × ExpRecord)) :=
  match tbl with
  | [] => .error .stopIteration
  | headers :: rows => do
    let name_idx ← pyIndex headers "Ligand name"
    let exp_dg_idx ← pyIndex headers "Exp. dG (kcal/mol)"
    let exp_dg_error_idx := (pyIndex headers "Exp. dG error (kcal/mol)").toOption
    let fep_dg_idx ← pyIndex headers "Pred. dG (kcal/mol)"
    let fep_dg_error_idx ← pyIndex headers "Pred. dG std. error (kcal/mol)"
    expLoop name_idx exp_dg_idx exp_dg_error_idx fep_dg_idx fep_dg_error_idx
      [] rows

/-! ### `get_calc_data` (plot_results.py lines 55-86) -/

/-- The per-edge record built by `get_calc_data`. -/
structure CalcRecord where
  ligand_i : String
  ligand_j : String
  ddG : ℚ
  ddG_err : ℚ
deriving DecidableEq, Repr

/-- The warning text of line 83 (f-string spelled out). -/
def calcWarning (tag : String) : String :=
  "Calculated standard deviation for " ++ tag ++
    " is less than 0.01 - adding 0.01 padding"

/-- The body of `get_calc_data`'s row loop (lines 74-84).  The state is the
dict built so far together with the warnings emitted so far; an error below
0.01 triggers a warning and 0.01 is ADDED to it. -/
def readCalcRow (st : List (String × CalcRecord) × List String)
    (row : List String) :
    Except PyErr (List (String × CalcRecord) × List String) := do
  let li ← pyGet row 0
  let lj ← pyGet row 1
  let tag := li ++ "->" ++ lj
  let ddG ← pyFloatE (← pyGet row 2)
  let ddG_err ← pyFloatE (← pyGet row 3)
  if ddG_err < 0.01 then
    pure (dictInsert st.1 tag ⟨li, lj, ddG, ddG_err + 0.01⟩,
      st.2 ++ [calcWarning tag])
  else
    pure (dictInsert st.1 tag ⟨li, lj, ddG, ddG_err⟩, st.2)

/-- `for row in rd:` of `get_calc_data` as explicit recursion. -/
def calcLoop (st : List (String × CalcRecord) × List String) :
    List (List String) →
    Except PyErr (List (String × CalcRecord) × List String)
  | [] => .ok st
  | row :: rest => do
    let st2 ← readCalcRow st row
    calcLoop st2 rest

/-- `get_calc_data`: the input TSV as rows of cells, the header row being
discarded.  Returns the dict and the warnings emitted. -/
def get_calc_data (tbl : List (List String)) :
    Except PyErr (List (String × CalcRecord) × List String) :=
  match tbl with
  | [] => .error .stopIteration
  | _headers :: rows => calcLoop ([], []) rows

/-! ### The plot layer (plot_results.py lines 148-319)

The cinnabar `FEMap`/`to_legacy_graph()` machinery is external; its output,
as the source consumes it, is a list of nodes each carrying the data keys
`exp_DG`, `calc_DG`, `exp_dDG`, `calc_dDG`.  The statistics computed inside
`cinnabar_plotting._master_plot` are external as well and are the one place
that can raise the `ValueError` caught by `run`; they are abstracted as a
`computeStats` argument receiving the requested statistics list and the two
plotted arrays. -/

/-- A node of `femap.to_legacy_graph()` with its data dict. -/
structure GraphNode where
  name : String
  exp_DG : ℚ
  calc_DG : ℚ
  exp_dDG : ℚ
  calc_dDG : ℚ
deriving DecidableEq, Repr

/-- `np.mean` (total here; the claims never take the mean of an empty
array, where numpy would yield `nan` rather than raise). -/
def npMean (l : List ℚ) : ℚ := l.sum / l.length

/-- The external statistics computation of `_master_plot`:
requested statistics, x array, y array. -/
def StatsOracle : Type :=
  List String → List ℚ → List ℚ → Except PyErr Unit

/-- The arrays and shift assembled by `plot_femap` (lines 178-191):
`shift` is `sum(exp_dG)/len(exp_data)` (Python `/` — `ZeroDivisionError`
on an empty mapping) and both plotted arrays are re-centred to mean
`shift`. -/
structure FemapPlotData where
  shift : ℚ
  x_data : List ℚ
  y_data : List ℚ
  xerr : List ℚ
  yerr : List ℚ
deriving DecidableEq, Repr

/-- The data phase of `plot_femap` (lines 178-191). -/
def femap_plot_data (graph : List GraphNode)
    (exp_data : List (String × ExpRecord)) : Except PyErr FemapPlotData := do
  let shift ← pyDiv (exp_data.map (fun p => p.2.exp_dG)).sum exp_data.length
  let x_data := graph.map (fun n => n.exp_DG)
  let y_data := graph.map (fun n => n.calc_DG)
  let xerr := graph.map (fun n => n.exp_dDG)
  let yerr := graph.map (fun n => n.calc_dDG)
  let xc := x_data.map (fun v => v - npMean x_data + shift)
  let yc := y_data.map (fun v => v - npMean y_data + shift)
  pure ⟨shift, xc, yc, xerr, yerr⟩

/-- `plot_femap` (lines 148-212): the initial `plot_DDGs` call takes no
statistics argument and is modelled as a successful external effect; the
closing `_master_plot` call computes the requested statistics on the
centred arrays. -/
def plot_femap (computeStats : StatsOracle) (graph : List GraphNode)
    (exp_data : List (String × ExpRecord)) (statistics : List String) :
    Except PyErr FemapPlotData := do
  let d ← femap_plot_data graph exp_data
  computeStats statistics d.x_data d.y_data
  pure d

/-- The arrays and shift assembled by `plot_schrodinger_comparison`
(lines 233-243): no re-centring here, the shift is handed to
`_master_plot` as a keyword. -/
structure SchrodPlotData where
  exp : List ℚ
  exp_err : List ℚ
  fep : List ℚ
  fep_err : List ℚ
  shift : ℚ
deriving DecidableEq, Repr

/-- The data phase of `plot_schrodinger_comparison` (lines 233-243). -/
def schrodinger_plot_data (exp_data : List (String × ExpRecord)) :
    Except PyErr SchrodPlotData := do
  let exp := exp_data.map (fun p => p.2.exp_dG)
  let exp_err := exp_data.map (fun p => p.2.exp_dG_err)
  let fep := exp_data.map (fun p => p.2.fep_dG)
  let fep_err := exp_data.map (fun p => p.2.fep_dG_err)
  let shift ← pyDiv (exp_data.map (fun p => p.2.exp_dG)).sum exp_data.length
  pure ⟨exp, exp_err, fep, fep_err, shift⟩

/-- `plot_schrodinger_comparison` (lines 215-262). -/
def plot_schrodinger_comparison (computeStats : StatsOracle)
    (exp_data : List (String × ExpRecord)) (statistics : List String) :
    Except PyErr SchrodPlotData := do
  let d ← schrodinger_plot_data exp_data
  computeStats statistics d.exp d.fep
  pure d

/-- The `for entry in exp_data:` loop of `plot_openfe_schrodinger_comparison`
(lines 290-298): a ligand with no matching graph node is skipped; a match
uses the FIRST matching node (`openfe_entry[0]`).  Returns the five lists
`(fep, fep_err, dg_openfe, openfe_err, exp)` in dict iteration order. -/
def comparisonLoop (nodes : List GraphNode) :
    List (String × ExpRecord) →
    List ℚ × List ℚ × List ℚ × List ℚ × List ℚ
  | [] => ([], [], [], [], [])
  | entry :: rest =>
    let (fep, fep_err, dg_openfe, openfe_err, exp) := comparisonLoop nodes rest
    match nodes.filter (fun n => n.name = entry.1) with
    | [] => (fep, fep_err, dg_openfe, openfe_err, exp)
    | node :: _ =>
      (entry.2.fep_dG :: fep, entry.2.fep_dG_err :: fep_err,
        node.calc_DG :: dg_openfe, node.calc_dDG :: openfe_err,
        node.exp_DG :: exp)

/-- The arrays and shift assembled by `plot_openfe_schrodinger_comparison`
(lines 284-301): `shift = sum(exp)/len(exp)` over the INTERSECTION lists
built by the loop, and `dg_openfe` is re-centred to mean `shift`. -/
structure ComparisonPlotData where
  fep : List ℚ
  fep_err : List ℚ
  dg_openfe : List ℚ
  openfe_err : List ℚ
  shift : ℚ
deriving DecidableEq, Repr

/-- The data phase of `plot_openfe_schrodinger_comparison`
(lines 284-301). -/
def comparison_plot_data (nodes : List GraphNode)
    (exp_data : List (String × ExpRecord)) :
    Except PyErr ComparisonPlotData := do
  let (fep, fep_err, dg_openfe, openfe_err, exp) := comparisonLoop nodes exp_data
  let shift ← pyDiv exp.sum exp.length
  let dgc := dg_openfe.map (fun v => v - npMean dg_openfe + shift)
  pure ⟨fep, fep_err, dgc, openfe_err, shift⟩

/-- `plot_openfe_schrodinger_comparison` (lines 265-319). -/
def plot_openfe_schrodinger_comparison (computeStats : StatsOracle)
    (nodes : List GraphNode) (exp_data : List (String × ExpRecord))
    (statistics : List String) : Except PyErr ComparisonPlotData := do
  let d ← comparison_plot_data nodes exp_data
  computeStats statistics d.fep d.dg_openfe
  pure d

/-! ### The `run` command's plotting phase (plot_results.py lines 395-410) -/

/-- The Python default `statistics=["RMSE", "MUE", "R2", "rho"]`. -/
def fullStats : List String := ["RMSE", "MUE", "R2", "rho"]

/-- The reduced statistics of the fallback branch. -/
def reducedStats : List String := ["RMSE", "MUE"]

/-- The `click.echo` message of lines 400-401. -/
def fallbackNotice : String :=
  "Correlation statistics (R2 and rho) for DG plots cannot be" ++
    " calculated due to small sample size."

/-- One batch of the three plot reports with a given statistics list
(the body of the `try:` block, lines 396-398, and likewise the fallback
calls of lines 402-410). -/
def runBatch (computeStats : StatsOracle) (nodes : List GraphNode)
    (exp_data : List (String × ExpRecord)) (statistics : List String) :
    Except PyErr (FemapPlotData × SchrodPlotData × ComparisonPlotData) := do
  let a ← plot_femap computeStats nodes exp_data statistics
  let b ← plot_schrodinger_comparison computeStats exp_data statistics
  let c ← plot_openfe_schrodinger_comparison computeStats nodes exp_data
    statistics
  pure (a, b, c)

/-- The plotting phase of the `run` command (lines 395-410): the reading
phase and the external `get_femap` assembly are factored into the `nodes`
and `exp_data` inputs.  `except ValueError:` echoes the notice and reruns
the whole batch once with `["RMSE", "MUE"]`; any other exception, and any
exception of the second batch, propagates.  The result carries the echoed
notices alongside the plot data. -/
def run (computeStats : StatsOracle) (nodes : List GraphNode)
    (exp_data : List (String × ExpRecord)) :
    Except PyErr
      (List String × (FemapPlotData × SchrodPlotData × ComparisonPlotData)) :=
  match runBatch computeStats nodes exp_data fullStats with
  | .ok out => .ok ([], out)
  | .error (.valueError _) =>
      match runBatch computeStats nodes exp_data reducedStats with
      | .ok out => .ok ([fallbackNotice], out)
      | .error e => .error e
  | .error e => .error e

/-! ### The renaming utility (rename_exp_data.py lines 24-56) -/

/-- One row of the experimental CSV as the renaming utility sees it: the
value of the "Ligand Name" column, and the values of all other cells of
the row (which `main` never touches). -/
structure CsvRow where
  ligandName : String
  others : List String
deriving DecidableEq, Repr

/-- The inner `_rename` closure (lines 47-51): look the row's ligand name
up in the mapping; a `KeyError` becomes a `RuntimeError` naming the
offending value. -/
def renameRow (name_mapping : List (String × String)) (row : CsvRow) :
    Except PyErr String :=
  match pyLookup name_mapping row.ligandName with
  | some newName => .ok newName
  | none => .error (.runtimeError ("Could not convert " ++ row.ligandName ++
      " as it was not found in the name mapping."))

/-- `exp_csv.apply(_rename, axis=1)` (line 53): `_rename` runs on the rows
in order and the first exception aborts the whole call. -/
def applyRename (name_mapping : List (String × String)) :
    List CsvRow → Except PyErr (List String)
  | [] => .ok []
  | row :: rest => do
    let n ← renameRow name_mapping row
    let ns ← applyRename name_mapping rest
    pure (n :: ns)

/-- The body of `main` (lines 42-56): rename every row's ligand name, then
(only on success — `to_csv` is only reached if `apply` did not raise) the
output table is the input with the "Ligand Name" column replaced and every
other cell untouched.  An `.error` result models "no output file is
written". -/
def rename_main (name_mapping : List (String × String))
    (exp_csv : List CsvRow) : Except PyErr (List CsvRow) := do
  let newNames ← applyRename name_mapping exp_csv
  pure (List.zipWith (fun r n => { r with ligandName := n }) exp_csv newNames)

/-! ### Sample statistics oracles used to instantiate the plot layer -/

/-- An external statistics computation that always succeeds. -/
def okStats : StatsOracle := fun _ _ _ => .ok ()

/-- An external statistics computation that raises `ValueError` exactly when
the correlation statistic R2 is requested, as scipy does on degenerate
samples. -/
def failR2Stats : StatsOracle := fun stats _ _ =>
  if "R2" ∈ stats then .error (.valueError "math domain error") else .ok ()

/-! ### General lemmas about the embedded primitives -/

/-- Splitting a successful `Except` bind. -/
theorem bindOk {α β : Type} {x : Except PyErr α} {f : α → Except PyErr β}
    {b : β} (h : x >>= f = .ok b) : ∃ a, x = .ok a ∧ f a = .ok b := by
  cases x with
  | ok a => exact ⟨a, rfl, by simpa [Bind.bind, Except.bind] using h⟩
  | error e => simp [Bind.bind, Except.bind] at h

/-- `list.index(x)` raises `ValueError` exactly when `x` is absent. -/
theorem pyIndex_error_of_not_mem (l : List String) (x : String) (h : x ∉ l) :
    pyIndex l x = .error (.valueError (x ++ " is not in list")) := by
  induction l with
  | nil => rfl
  | cons y ys ih =>
    have hxy : ¬ y = x := fun e => h (by rw [e]; exact List.mem_cons_self x ys)
    simp [pyIndex, hxy, ih (fun hm => h (List.mem_cons_of_mem y hm)), Except.map]

/-- `list.index(x)` succeeds when `x` is present. -/
theorem pyIndex_ok_of_mem (l : List String) (x : String) (h : x ∈ l) :
    ∃ n, pyIndex l x = .ok n := by
  induction l with
  | nil => cases h
  | cons y ys ih =>
    by_cases hy : y = x
    · exact ⟨0, by simp [pyIndex, hy]⟩
    · obtain ⟨n, hn⟩ := ih (by
        rcases List.mem_cons.mp h with h1 | h1
        · exact absurd h1.symm hy
        · exact h1)
      exact ⟨n + 1, by simp [pyIndex, hy, hn, Except.map]⟩

/-- Filtering the graph nodes by a name that none of them carries gives
the empty list. -/
theorem filter_name_eq_nil (nodes : List GraphNode) (l : String)
    (h : ∀ n ∈ nodes, n.name ≠ l) :
    nodes.filter (fun n => n.name = l) = [] := by
  induction nodes with
  | nil => rfl
  | cons a t ih =>
    simp [List.filter_cons, h a (List.mem_cons_self a t),
      ih (fun n hn => h n (List.mem_cons_of_mem a hn))]

/-- The comparison loop skips an experimental entry whose ligand matches no
graph node. -/
theorem comparisonLoop_skip (nodes : List GraphNode) (l : String)
    (r : ExpRecord) (h : ∀ n ∈ nodes, n.name ≠ l) :
    ∀ pre post, comparisonLoop nodes (pre ++ (l, r) :: post) =
      comparisonLoop nodes (pre ++ post)
  | [], post => by
    simp only [List.nil_append, comparisonLoop, filter_name_eq_nil nodes l h]
  | e :: pre, post => by
    have hrec := comparisonLoop_skip nodes l r h pre post
    simp only [List.cons_append, comparisonLoop, List.append_eq]
    rw [hrec]

/-- With no ligand shared between the experimental data and the graph, the
comparison loop collects nothing. -/
theorem comparisonLoop_disjoint (nodes : List GraphNode) :
    ∀ ed : List (String × ExpRecord),
      (∀ p ∈ ed, ∀ n ∈ nodes, n.name ≠ p.1) →
      comparisonLoop nodes ed = ([], [], [], [], [])
  | [], _ => rfl
  | p :: rest, h => by
    simp only [comparisonLoop,
      comparisonLoop_disjoint nodes rest
        (fun q hq n hn => h q (List.mem_cons_of_mem p hq) n hn),
      filter_name_eq_nil nodes p.1 (h p (List.mem_cons_self p rest))]

/-- With an empty ligand intersection, `plot_openfe_schrodinger_comparison`
hits `sum([]) / len([])` and raises `ZeroDivisionError`. -/
theorem comparison_zero_div (cs : StatsOracle) (stats : List String)
    (nodes : List GraphNode) (ed : List (String × ExpRecord))
    (h : ∀ p ∈ ed, ∀ n ∈ nodes, n.name ≠ p.1) :
    plot_openfe_schrodinger_comparison cs nodes ed stats =
      .error .zeroDivisionError := by
  simp [plot_openfe_schrodinger_comparison, comparison_plot_data,
    comparisonLoop_disjoint nodes ed h, pyDiv, Bind.bind, Except.bind]

/-- The shift of a successful `femap_plot_data` run is the mean experimental
dG over the whole experimental mapping. -/
theorem femap_plot_data_shift {graph : List GraphNode}
    {ed : List (String × ExpRecord)} {d : FemapPlotData}
    (h : femap_plot_data graph ed = .ok d) :
    d.shift = (ed.map (fun p => p.2.exp_dG)).sum / (ed.length : ℚ) := by
  unfold femap_plot_data at h
  obtain ⟨sh, h1, h2⟩ := bindOk h
  have hd : (⟨sh, (graph.map (fun n => n.exp_DG)).map
      (fun v => v - npMean (graph.map (fun n => n.exp_DG)) + sh),
      (graph.map (fun n => n.calc_DG)).map
      (fun v => v - npMean (graph.map (fun n => n.calc_DG)) + sh),
      graph.map (fun n => n.exp_dDG),
      graph.map (fun n => n.calc_dDG)⟩ : FemapPlotData) = d := by
    simpa [pure, Except.pure] using h2
  unfold pyDiv at h1
  split at h1
  · simp at h1
  · injection h1 with h1
    rw [← hd]
    exact h1.symm

/-- The shift of a successful `comparison_plot_data` run is the mean of the
graph's experimental node values over the intersection the loop built. -/
theorem comparison_plot_data_shift {nodes : List GraphNode}
    {ed : List (String × ExpRecord)} {d : ComparisonPlotData}
    (h : comparison_plot_data nodes ed = .ok d) :
    d.shift = (comparisonLoop nodes ed).2.2.2.2.sum /
      (((comparisonLoop nodes ed).2.2.2.2.length : ℚ)) := by
  unfold comparison_plot_data at h
  rcases hcl : comparisonLoop nodes ed with ⟨f1, f2, f3, f4, f5⟩
  rw [hcl] at h
  obtain ⟨sh, h1, h2⟩ := bindOk h
  have hd : (⟨f1, f2, f3.map (fun v => v - npMean f3 + sh), f4, sh⟩ :
      ComparisonPlotData) = d := by
    simpa [pure, Except.pure] using h2
  unfold pyDiv at h1
  split at h1
  · simp at h1
  · injection h1 with h1
    rw [← hd]
    exact h1.symm

/-- `apply(_rename)` fails with the `RuntimeError` naming an unmapped
ligand as soon as one occurs among the rows. -/
theorem applyRename_error_of_unmapped (m : List (String × String)) :
    ∀ rows : List CsvRow,
      (∃ row ∈ rows, pyLookup m row.ligandName = none) →
      ∃ v, (∃ r ∈ rows, r.ligandName = v) ∧ pyLookup m v = none ∧
        applyRename m rows = .error (.runtimeError ("Could not convert " ++ v ++
          " as it was not found in the name mapping.")) := by
  intro rows
  induction rows with
  | nil => rintro ⟨row, hmem, _⟩; cases hmem
  | cons r rest ih =>
    rintro ⟨row, hmem, hnone⟩
    cases hlook : pyLookup m r.ligandName with
    | none =>
      refine ⟨r.ligandName, ⟨r, List.mem_cons_self r rest, rfl⟩, hlook, ?_⟩
      simp [applyRename, renameRow, hlook, Bind.bind, Except.bind]
    | some v0 =>
      have hrow : row ∈ rest := by
        rcases List.mem_cons.mp hmem with h | h
        · subst h; rw [hlook] at hnone; cases hnone
        · exact h
      obtain ⟨v, ⟨r2, hr2, hr2n⟩, hvnone, happ⟩ := ih ⟨row, hrow, hnone⟩
      refine ⟨v, ⟨r2, List.mem_cons_of_mem r hr2, hr2n⟩, hvnone, ?_⟩
      simp [applyRename, renameRow, hlook, happ, Bind.bind, Except.bind]

/-- When every row's ligand name is mapped, `apply(_rename)` returns the
mapped names in row order. -/
theorem applyRename_all_mapped (m : List (String × String)) :
    ∀ rows : List CsvRow,
      (∀ r ∈ rows, (pyLookup m r.ligandName).isSome) →
      applyRename m rows =
        .ok (rows.map (fun r => (pyLookup m r.ligandName).getD r.ligandName)) := by
  intro rows
  induction rows with
  | nil => intro _; rfl
  | cons r rest ih =>
    intro h
    obtain ⟨v, hv⟩ := Option.isSome_iff_exists.mp (h r (List.mem_cons_self r rest))
    have hrest := ih (fun x hx => h x (List.mem_cons_of_mem r hx))
    simp [applyRename, renameRow, hv, hrest, Bind.bind, Except.bind, pure,
      Except.pure]

/-- Zipping a list with a mapped copy of itself is a pointwise update. -/
theorem zipWith_replace_map {α β : Type} (g : α → β) (upd : α → β → α) :
    ∀ rows : List α,
      List.zipWith upd rows (rows.map g) = rows.map (fun r => upd r (g r))
  | [] => rfl
  | r :: rest => by
    simp [List.zipWith, zipWith_replace_map g upd rest]

/-! ### The claims -/

/-- C1: a calculated-data row whose parsed standard error is 0.003 is
stored with ddG_err 0.013 (0.01 padding added) and a warning naming the
edge is emitted; a row whose parsed standard error is 0.02 is stored
unchanged and no warning is emitted. -/
theorem calc_reader_padding_examples
    (st : List (String × CalcRecord) × List String)
    (li lj sd se : String) (rest : List String) (d : ℚ)
    (hd : pyFloat sd = some d) :
    (pyFloat se = some (3/1000) →
      readCalcRow st (li :: lj :: sd :: se :: rest) =
        .ok (dictInsert st.1 (li ++ "->" ++ lj) ⟨li, lj, d, 13/1000⟩,
          st.2 ++ [calcWarning (li ++ "->" ++ lj)])) ∧
    (pyFloat se = some (1/50) →
      readCalcRow st (li :: lj :: sd :: se :: rest) =
        .ok (dictInsert st.1 (li ++ "->" ++ lj) ⟨li, lj, d, 1/50⟩, st.2)) := by
  constructor <;> intro he <;>
    simp [readCalcRow, pyGet, pyFloatE, hd, he, Bind.bind, Except.bind,
      pure, Except.pure] <;> norm_num

/-- Witness for C1 at the concrete rows `A B 1.0 0.003` and `A B 1.0 0.02`. -/
theorem calc_reader_padding_examples_witness :
    readCalcRow ([], []) ["A", "B", "1.0", "0.003"] =
      .ok ([("A->B", ⟨"A", "B", 1, 13/1000⟩)], [calcWarning "A->B"]) ∧
    readCalcRow ([], []) ["A", "B", "1.0", "0.02"] =
      .ok ([("A->B", ⟨"A", "B", 1, 1/50⟩)], []) :=
  ⟨(calc_reader_padding_examples ([], []) "A" "B" "1.0" "0.003" [] 1
      (by decide)).1 (by decide),
   (calc_reader_padding_examples ([], []) "A" "B" "1.0" "0.02" [] 1
      (by decide)).2 (by decide)⟩

/-- C2 counterexample: for the row `A B 1.0 0.003` the reader stores
0.013, not 0.01 — the sub-threshold error is padded by 0.01, not replaced
by (floored at) 0.01. -/
theorem calc_reader_not_floored_cex :
    get_calc_data [["ligand_i", "ligand_j", "ddG", "ddG_err"],
        ["A", "B", "1.0", "0.003"]] =
      .ok ([("A->B", ⟨"A", "B", 1, 13/1000⟩)], [calcWarning "A->B"]) ∧
    (13 : ℚ)/1000 ≠ 1/100 := by
  constructor
  · rfl
  · norm_num

/-- C2 amended: a calculated-data row whose parsed standard error is below
0.01 is stored with that error plus 0.01 (padding, not a floor), and a
warning — never an error — is emitted. -/
theorem calc_reader_pads_below_threshold
    (st : List (String × CalcRecord) × List String)
    (li lj sd se : String) (rest : List String) (d e : ℚ)
    (hd : pyFloat sd = some d) (he : pyFloat se = some e)
    (hlt : e < 1/100) :
    readCalcRow st (li :: lj :: sd :: se :: rest) =
      .ok (dictInsert st.1 (li ++ "->" ++ lj) ⟨li, lj, d, e + 1/100⟩,
        st.2 ++ [calcWarning (li ++ "->" ++ lj)]) := by
  have hlt2 : e < (0.01 : ℚ) := by
    have h100 : (0.01 : ℚ) = 1/100 := by norm_num
    rw [h100]; exact hlt
  simp [readCalcRow, pyGet, pyFloatE, hd, he, Bind.bind, Except.bind,
    pure, Except.pure, hlt2]
  norm_num

/-- Witness for the amended C2 at the concrete row `A B 1.0 0.003`. -/
theorem calc_reader_pads_below_threshold_witness :
    readCalcRow ([], []) ["A", "B", "1.0", "0.003"] =
      .ok ([("A->B", ⟨"A", "B", 1, 3/1000 + 1/100⟩)], [calcWarning "A->B"]) :=
  calc_reader_pads_below_threshold ([], []) "A" "B" "1.0" "0.003" [] 1
    (3/1000) (by decide) (by decide) (by norm_num)

/-- C3 counterexample: with graph node A only, and experimental ligands A
(dG 0) and B (dG 2), the third-party comparison centres with shift 0 (the
mean over the intersection {A}) while the mean experimental dG over all
ligands of the file is 1. -/
theorem comparison_shift_not_global_mean_cex :
    comparison_plot_data [⟨"A", 0, -5, 1, 2⟩]
        [("A", ⟨0, 0, 1, 1⟩), ("B", ⟨2, 0, 3, 3⟩)] =
      .ok ⟨[1], [1], [0], [2], 0⟩ ∧
    ([("A", (⟨0, 0, 1, 1⟩ : ExpRecord)), ("B", ⟨2, 0, 3, 3⟩)].map
          (fun p => p.2.exp_dG)).sum /
        (([("A", (⟨0, 0, 1, 1⟩ : ExpRecord)),
            ("B", ⟨2, 0, 3, 3⟩)].length : ℚ)) = 1 ∧
    (0 : ℚ) ≠ 1 := by
  refine ⟨rfl, ?_, ?_⟩ <;> norm_num

/-- C3 amended: the computed-vs-experiment report centres by the mean
experimental dG over all ligands of the experimental file, but the
computed-vs-third-party report centres by the mean of the graph's
experimental node values over only the ligands present in both the graph
and the experimental file. -/
theorem centering_shift_policy :
    (∀ (cs : StatsOracle) (graph : List GraphNode)
        (ed : List (String × ExpRecord)) (stats : List String)
        (d : FemapPlotData),
      plot_femap cs graph ed stats = .ok d →
      d.shift = (ed.map (fun p => p.2.exp_dG)).sum / (ed.length : ℚ)) ∧
    (∀ (cs : StatsOracle) (nodes : List GraphNode)
        (ed : List (String × ExpRecord)) (stats : List String)
        (d : ComparisonPlotData),
      plot_openfe_schrodinger_comparison cs nodes ed stats = .ok d →
      d.shift = (comparisonLoop nodes ed).2.2.2.2.sum /
        (((comparisonLoop nodes ed).2.2.2.2.length : ℚ))) := by
  constructor
  · intro cs graph ed stats d h
    unfold plot_femap at h
    obtain ⟨d0, h1, h2⟩ := bindOk h
    obtain ⟨u, h3, h4⟩ := bindOk h2
    have he : d0 = d := by simpa [pure, Except.pure] using h4
    subst he
    exact femap_plot_data_shift h1
  · intro cs nodes ed stats d h
    unfold plot_openfe_schrodinger_comparison at h
    obtain ⟨d0, h1, h2⟩ := bindOk h
    obtain ⟨u, h3, h4⟩ := bindOk h2
    have he : d0 = d := by simpa [pure, Except.pure] using h4
    subst he
    exact comparison_plot_data_shift h1

/-- Witness for the amended C3 on the counterexample data: both shift
characterisations hold on the concrete plots. -/
theorem centering_shift_policy_witness :
    (⟨1, [1], [1], [1], [2]⟩ : FemapPlotData).shift =
      ([("A", (⟨0, 0, 1, 1⟩ : ExpRecord)), ("B", ⟨2, 0, 3, 3⟩)].map
          (fun p => p.2.exp_dG)).sum /
        (([("A", (⟨0, 0, 1, 1⟩ : ExpRecord)),
            ("B", ⟨2, 0, 3, 3⟩)].length : ℚ)) ∧
    (⟨[1], [1], [0], [2], 0⟩ : ComparisonPlotData).shift =
      (comparisonLoop [⟨"A", 0, -5, 1, 2⟩]
          [("A", ⟨0, 0, 1, 1⟩), ("B", ⟨2, 0, 3, 3⟩)]).2.2.2.2.sum /
        (((comparisonLoop [⟨"A", 0, -5, 1, 2⟩]
            [("A", ⟨0, 0, 1, 1⟩), ("B", ⟨2, 0, 3, 3⟩)]).2.2.2.2.length : ℚ)) :=
  ⟨centering_shift_policy.1 okStats [⟨"A", 0, -5, 1, 2⟩]
      [("A", ⟨0, 0, 1, 1⟩), ("B", ⟨2, 0, 3, 3⟩)] fullStats
      ⟨1, [1], [1], [1], [2]⟩ (by rfl),
   centering_shift_policy.2 okStats [⟨"A", 0, -5, 1, 2⟩]
      [("A", ⟨0, 0, 1, 1⟩), ("B", ⟨2, 0, 3, 3⟩)] fullStats
      ⟨[1], [1], [0], [2], 0⟩ (by rfl)⟩

/-- C4: when the full-statistics batch of the three reports raises
`ValueError`, `run` echoes the small-sample notice and reruns the whole
batch exactly once with `["RMSE", "MUE"]`; the result of that reduced
batch is final — a success is returned with the notice, and a failure
propagates uncaught. -/
theorem reduced_stats_fallback (cs : StatsOracle) (nodes : List GraphNode)
    (ed : List (String × ExpRecord)) (m : String)
    (hfail : runBatch cs nodes ed fullStats = .error (.valueError m)) :
    (∀ out, runBatch cs nodes ed reducedStats = .ok out →
      run cs nodes ed = .ok ([fallbackNotice], out)) ∧
    (∀ e, runBatch cs nodes ed reducedStats = .error e →
      run cs nodes ed = .error e) := by
  constructor <;> intro x hx <;> simp [run, hfail, hx]

/-- Witness for C4 with a statistics oracle that fails exactly when R2 is
requested: the reduced rerun succeeds and the notice is echoed. -/
theorem reduced_stats_fallback_witness :
    run failR2Stats [⟨"A", -10, -10, 0, 0⟩] [("A", ⟨-10, 0, -9, 0⟩)] =
      .ok ([fallbackNotice],
        (⟨-10, [-10], [-10], [0], [0]⟩,
         ⟨[-10], [0], [-9], [0], -10⟩,
         ⟨[-9], [0], [-10], [0], -10⟩)) :=
  (reduced_stats_fallback failR2Stats [⟨"A", -10, -10, 0, 0⟩]
      [("A", ⟨-10, 0, -9, 0⟩)] "math domain error" (by rfl)).1
    (⟨-10, [-10], [-10], [0], [0]⟩,
     ⟨[-10], [0], [-9], [0], -10⟩,
     ⟨[-9], [0], [-10], [0], -10⟩) (by rfl)

/-- C5: whenever some row's "Ligand Name" is absent from the mapping, the
renaming utility fails with a `RuntimeError` naming an offending value and
returns no output table (so no output file is written). -/
theorem unmapped_name_fatal_error (m : List (String × String))
    (rows : List CsvRow)
    (hx : ∃ row ∈ rows, pyLookup m row.ligandName = none) :
    ∃ v, (∃ r ∈ rows, r.ligandName = v) ∧ pyLookup m v = none ∧
      rename_main m rows = .error (.runtimeError ("Could not convert " ++ v ++
        " as it was not found in the name mapping.")) := by
  obtain ⟨v, hv, hvnone, happ⟩ := applyRename_error_of_unmapped m rows hx
  exact ⟨v, hv, hvnone, by simp [rename_main, happ, Bind.bind, Except.bind]⟩

/-- Witness for C5: a CSV whose only ligand name `LigB` is unmapped fails
with the `RuntimeError` naming `LigB`. -/
theorem unmapped_name_fatal_error_witness :
    rename_main [("LigA", "CCD-0001")] [⟨"LigB", ["-10.0", "0.2"]⟩] =
      .error (.runtimeError
        "Could not convert LigB as it was not found in the name mapping.") := by
  obtain ⟨v, ⟨r, hr, hrv⟩, hvnone, h⟩ :=
    unmapped_name_fatal_error [("LigA", "CCD-0001")]
      [⟨"LigB", ["-10.0", "0.2"]⟩]
      ⟨⟨"LigB", ["-10.0", "0.2"]⟩, by simp, by decide⟩
  have hveq : v = "LigB" := by
    have hre : r = ⟨"LigB", ["-10.0", "0.2"]⟩ := by simpa using hr
    rw [← hrv, hre]
  rw [hveq] at h
  exact h

/-- C6: the experimental-data reader fails with Python's column-not-found
`ValueError` as soon as a required column is missing from the header
(each of the four required columns, in lookup order), and fails with the
float-conversion `ValueError` on a malformed numeric field; in every such
case the error is returned instead of any mapping. -/
theorem exp_reader_fails_fast :
    (∀ (headers : List String) (rows : List (List String)),
      "Ligand name" ∉ headers →
      get_exp_data (headers :: rows) =
        .error (.valueError ("Ligand name" ++ " is not in list"))) ∧
    (∀ (headers : List String) (rows : List (List String)),
      "Ligand name" ∈ headers → "Exp. dG (kcal/mol)" ∉ headers →
      get_exp_data (headers :: rows) =
        .error (.valueError ("Exp. dG (kcal/mol)" ++ " is not in list"))) ∧
    (∀ (headers : List String) (rows : List (List String)),
      "Ligand name" ∈ headers → "Exp. dG (kcal/mol)" ∈ headers →
      "Pred. dG (kcal/mol)" ∉ headers →
      get_exp_data (headers :: rows) =
        .error (.valueError ("Pred. dG (kcal/mol)" ++ " is not in list"))) ∧
    (∀ (headers : List String) (rows : List (List String)),
      "Ligand name" ∈ headers → "Exp. dG (kcal/mol)" ∈ headers →
      "Pred. dG (kcal/mol)" ∈ headers →
      "Pred. dG std. error (kcal/mol)" ∉ headers →
      get_exp_data (headers :: rows) =
        .error (.valueError
          ("Pred. dG std. error (kcal/mol)" ++ " is not in list"))) ∧
    (∀ (name s c d : String) (rows : List (List String)), pyFloat s = none →
      get_exp_data (["Ligand name", "Exp. dG (kcal/mol)", "Pred. dG (kcal/mol)",
          "Pred. dG std. error (kcal/mol)"] :: [name, s, c, d] :: rows) =
        .error (.valueError ("could not convert string to float: " ++ s))) := by
  refine ⟨?_, ?_, ?_, ?_, ?_⟩
  · intro headers rows h1
    simp [get_exp_data, pyIndex_error_of_not_mem _ _ h1, Bind.bind, Except.bind]
  · intro headers rows h1 h2
    obtain ⟨n1, e1⟩ := pyIndex_ok_of_mem _ _ h1
    simp [get_exp_data, e1, pyIndex_error_of_not_mem _ _ h2, Bind.bind,
      Except.bind]
  · intro headers rows h1 h2 h3
    obtain ⟨n1, e1⟩ := pyIndex_ok_of_mem _ _ h1
    obtain ⟨n2, e2⟩ := pyIndex_ok_of_mem _ _ h2
    simp [get_exp_data, e1, e2, pyIndex_error_of_not_mem _ _ h3, Bind.bind,
      Except.bind]
  · intro headers rows h1 h2 h3 h4
    obtain ⟨n1, e1⟩ := pyIndex_ok_of_mem _ _ h1
    obtain ⟨n2, e2⟩ := pyIndex_ok_of_mem _ _ h2
    obtain ⟨n3, e3⟩ := pyIndex_ok_of_mem _ _ h3
    simp [get_exp_data, e1, e2, e3, pyIndex_error_of_not_mem _ _ h4, Bind.bind,
      Except.bind]
  · intro name s c d rows hs
    simp [get_exp_data, pyIndex, expLoop, readExpRow, pyGet, pyFloatE, hs,
      Bind.bind, Except.bind, Except.map, Except.toOption]

/-- Witness for C6: a header with only "Ligand name" fails on the missing
"Exp. dG (kcal/mol)" column, and a malformed value `oops` in the Exp. dG
field fails with the float-conversion error. -/
theorem exp_reader_fails_fast_witness :
    get_exp_data [["Ligand name"]] =
      .error (.valueError ("Exp. dG (kcal/mol)" ++ " is not in list")) ∧
    get_exp_data [["Ligand name", "Exp. dG (kcal/mol)", "Pred. dG (kcal/mol)",
        "Pred. dG std. error (kcal/mol)"], ["A", "oops", "-9", "0.1"]] =
      .error (.valueError ("could not convert string to float: " ++ "oops")) :=
  ⟨exp_reader_fails_fast.2.1 ["Ligand name"] [] (by decide) (by decide),
   exp_reader_fails_fast.2.2.2.2 "A" "oops" "-9" "0.1" [] (by decide)⟩

/-- C7: the third-party comparison silently drops an experimental entry
whose ligand matches no node of the computed graph — the whole report is
the one computed without that entry, with no error and no placeholder. -/
theorem comparison_skips_missing_ligand (cs : StatsOracle)
    (stats : List String) (nodes : List GraphNode)
    (pre post : List (String × ExpRecord)) (l : String) (r : ExpRecord)
    (h : ∀ n ∈ nodes, n.name ≠ l) :
    plot_openfe_schrodinger_comparison cs nodes (pre ++ (l, r) :: post) stats =
      plot_openfe_schrodinger_comparison cs nodes (pre ++ post) stats := by
  simp [plot_openfe_schrodinger_comparison, comparison_plot_data,
    comparisonLoop_skip nodes l r h pre post]

/-- Witness for C7: dropping the graph-less ligand `B` leaves the report
of the remaining ligand `A` unchanged. -/
theorem comparison_skips_missing_ligand_witness :
    plot_openfe_schrodinger_comparison okStats [⟨"A", -10, -9, 0, 0⟩]
        ([("B", ⟨1, 1, 1, 1⟩), ("A", ⟨-10, 0, -9, 0⟩)]) fullStats =
      plot_openfe_schrodinger_comparison okStats [⟨"A", -10, -9, 0, 0⟩]
        [("A", ⟨-10, 0, -9, 0⟩)] fullStats :=
  comparison_skips_missing_ligand okStats fullStats [⟨"A", -10, -9, 0, 0⟩]
    [] [("A", ⟨-10, 0, -9, 0⟩)] "B" ⟨1, 1, 1, 1⟩ (by decide)

/-- C8: when every "Ligand Name" of the CSV is in the mapping, the
renaming utility succeeds and returns the table with each ligand name
replaced by its mapped value and every other cell of every row, and the
row order, unchanged. -/
theorem rename_replaces_only_names (m : List (String × String))
    (rows : List CsvRow)
    (h : ∀ r ∈ rows, (pyLookup m r.ligandName).isSome) :
    rename_main m rows =
      .ok (rows.map (fun r =>
        ⟨(pyLookup m r.ligandName).getD r.ligandName, r.others⟩)) := by
  simp [rename_main, applyRename_all_mapped m rows h, Bind.bind, Except.bind,
    pure, Except.pure, zipWith_replace_map]

/-- Witness for C8 with mapping LigA -> CCD-0001 on a one-row CSV: the
name is replaced and the other cells are untouched. -/
theorem rename_replaces_only_names_witness :
    rename_main [("LigA", "CCD-0001")] [⟨"LigA", ["-10.0", "0.2"]⟩] =
      .ok [⟨"CCD-0001", ["-10.0", "0.2"]⟩] :=
  rename_replaces_only_names [("LigA", "CCD-0001")]
    [⟨"LigA", ["-10.0", "0.2"]⟩] (by decide)

/-- C9 counterexample: two experimental rows for the same ligand `A`
produce a single entry holding only the second row's values, with no
error — likewise for two calculated rows with the same edge `A->B`.  The
first rows (dG -10, ddG 1.0) are silently discarded. -/
theorem duplicate_rows_overwrite_cex :
    get_exp_data [["Ligand name", "Exp. dG (kcal/mol)", "Pred. dG (kcal/mol)",
        "Pred. dG std. error (kcal/mol)"],
      ["A", "-10", "-9", "0.1"], ["A", "-9", "-8", "0.2"]] =
      .ok [("A", ⟨-9, 0, -8, 1/5⟩)] ∧
    get_calc_data [["ligand_i", "ligand_j", "ddG", "ddG_err"],
      ["A", "B", "1.0", "0.5"], ["A", "B", "2.0", "0.5"]] =
      .ok ([("A->B", ⟨"A", "B", 2, 1/2⟩)], []) := by
  constructor <;> rfl

/-- C9 amended: both readers resolve duplicate keys by overwriting — two
rows with the same ligand name (resp. the same ordered ligand pair) yield
one entry carrying the second row's values, silently and without error. -/
theorem duplicate_rows_last_wins :
    (∀ (name s1 s2 s3 t1 t2 t3 : String) (a1 a2 a3 b1 b2 b3 : ℚ),
      pyFloat s1 = some a1 → pyFloat s2 = some a2 → pyFloat s3 = some a3 →
      pyFloat t1 = some b1 → pyFloat t2 = some b2 → pyFloat t3 = some b3 →
      get_exp_data [["Ligand name", "Exp. dG (kcal/mol)", "Pred. dG (kcal/mol)",
          "Pred. dG std. error (kcal/mol)"],
        [name, s1, s2, s3], [name, t1, t2, t3]] =
        .ok [(name, ⟨b1, 0, b2, b3⟩)]) ∧
    (∀ (li lj u1 u2 w1 w2 : String) (c1 c2 d1 d2 : ℚ),
      pyFloat u1 = some c1 → pyFloat u2 = some c2 →
      pyFloat w1 = some d1 → pyFloat w2 = some d2 →
      ¬ d1 < 1/100 → ¬ d2 < 1/100 →
      get_calc_data [["ligand_i", "ligand_j", "ddG", "ddG_err"],
        [li, lj, u1, w1], [li, lj, u2, w2]] =
        .ok ([(li ++ "->" ++ lj, ⟨li, lj, c2, d2⟩)], [])) := by
  constructor
  · intro name s1 s2 s3 t1 t2 t3 a1 a2 a3 b1 b2 b3 h1 h2 h3 h4 h5 h6
    simp [get_exp_data, pyIndex, expLoop, readExpRow, pyGet, pyFloatE,
      h1, h2, h3, h4, h5, h6, dictInsert, Bind.bind, Except.bind, pure,
      Except.pure, Except.toOption, Except.map]
  · intro li lj u1 u2 w1 w2 c1 c2 d1 d2 h1 h2 h3 h4 hd1 hd2
    have hd1b : ¬ d1 < (0.01 : ℚ) := by
      have h100 : (0.01 : ℚ) = 1/100 := by norm_num
      rw [h100]; exact hd1
    have hd2b : ¬ d2 < (0.01 : ℚ) := by
      have h100 : (0.01 : ℚ) = 1/100 := by norm_num
      rw [h100]; exact hd2
    simp [get_calc_data, calcLoop, readCalcRow, pyGet, pyFloatE,
      h1, h2, h3, h4, hd1b, hd2b, dictInsert, Bind.bind, Except.bind, pure,
      Except.pure]

/-- Witness for the amended C9 on concrete duplicate rows. -/
theorem duplicate_rows_last_wins_witness :
    get_exp_data [["Ligand name", "Exp. dG (kcal/mol)", "Pred. dG (kcal/mol)",
        "Pred. dG std. error (kcal/mol)"],
      ["A", "-10", "-9", "0.1"], ["A", "-9.5", "-8", "0.2"]] =
      .ok [("A", ⟨-19/2, 0, -8, 1/5⟩)] ∧
    get_calc_data [["ligand_i", "ligand_j", "ddG", "ddG_err"],
      ["A", "B", "1.0", "0.5"], ["A", "B", "2.5", "0.5"]] =
      .ok ([("A" ++ "->" ++ "B", ⟨"A", "B", 5/2, 1/2⟩)], []) :=
  ⟨duplicate_rows_last_wins.1 "A" "-10" "-9" "0.1" "-9.5" "-8" "0.2"
      (-10) (-9) (1/10) (-19/2) (-8) (1/5) (by decide) (by decide)
      (by decide) (by decide) (by decide) (by decide),
   duplicate_rows_last_wins.2 "A" "B" "1.0" "2.5" "0.5" "0.5" 1 (5/2)
      (1/2) (1/2) (by decide) (by decide) (by decide) (by decide)
      (by norm_num) (by norm_num)⟩

/-- C10: an empty ligand intersection makes the third-party comparison's
shift divide by zero (`ZeroDivisionError`), an empty experimental mapping
does the same in `plot_femap`, and in both cases the error is not the
`ValueError` that `run` catches, so it propagates out of `run` uncaught. -/
theorem empty_intersection_zero_division :
    (∀ (cs : StatsOracle) (stats : List String) (nodes : List GraphNode)
        (ed : List (String × ExpRecord)),
      (∀ p ∈ ed, ∀ n ∈ nodes, n.name ≠ p.1) →
      plot_openfe_schrodinger_comparison cs nodes ed stats =
        .error .zeroDivisionError) ∧
    (∀ (cs : StatsOracle) (stats : List String) (nodes : List GraphNode),
      plot_femap cs nodes [] stats = .error .zeroDivisionError) ∧
    (∀ (cs : StatsOracle) (nodes : List GraphNode),
      run cs nodes [] = .error .zeroDivisionError) ∧
    (∀ (cs : StatsOracle) (nodes : List GraphNode)
        (ed : List (String × ExpRecord)) (a : FemapPlotData)
        (b : SchrodPlotData),
      plot_femap cs nodes ed fullStats = .ok a →
      plot_schrodinger_comparison cs ed fullStats = .ok b →
      (∀ p ∈ ed, ∀ n ∈ nodes, n.name ≠ p.1) →
      run cs nodes ed = .error .zeroDivisionError) := by
  refine ⟨fun cs stats nodes ed h => comparison_zero_div cs stats nodes ed h,
    ?_, ?_, ?_⟩
  · intro cs stats nodes
    simp [plot_femap, femap_plot_data, pyDiv, Bind.bind, Except.bind]
  · intro cs nodes
    simp [run, runBatch, plot_femap, femap_plot_data, pyDiv, Bind.bind,
      Except.bind]
  · intro cs nodes ed a b ha hb h
    have hc := comparison_zero_div cs fullStats nodes ed h
    have hbatch : runBatch cs nodes ed fullStats =
        .error .zeroDivisionError := by
      simp [runBatch, ha, hb, hc, Bind.bind, Except.bind]
    simp [run, hbatch]

/-- Witness for C10: concrete graphs and experimental data with no shared
ligand make each of the three entry points raise `ZeroDivisionError`. -/
theorem empty_intersection_zero_division_witness :
    plot_openfe_schrodinger_comparison okStats [⟨"A", 0, 0, 0, 0⟩]
        [("B", ⟨1, 0, 1, 0⟩)] fullStats = .error .zeroDivisionError ∧
    plot_femap okStats [] [] fullStats = .error .zeroDivisionError ∧
    run okStats [⟨"A", 0, 0, 0, 0⟩] [] = .error .zeroDivisionError ∧
    run okStats [⟨"A", 0, 0, 0, 0⟩] [("B", ⟨1, 0, 1, 0⟩)] =
      .error .zeroDivisionError :=
  ⟨empty_intersection_zero_division.1 okStats fullStats [⟨"A", 0, 0, 0, 0⟩]
      [("B", ⟨1, 0, 1, 0⟩)] (by decide),
   empty_intersection_zero_division.2.1 okStats fullStats [],
   empty_intersection_zero_division.2.2.1 okStats [⟨"A", 0, 0, 0, 0⟩],
   empty_intersection_zero_division.2.2.2 okStats [⟨"A", 0, 0, 0, 0⟩]
      [("B", ⟨1, 0, 1, 0⟩)] ⟨1, [1], [1], [0], [0]⟩ ⟨[1], [0], [1], [0], 1⟩
      (by rfl) (by rfl) (by decide)⟩

end IndustryBenchmarks
